import Mathlib

set_option maxRecDepth 16000

set_option maxHeartbeats 1000000

/-!
Verification of the natural-language specification of the `variance_map_ps`
repository against a shallow embedding of its two source files:

* `src/cmbml/utils/get_maps.py` — the asset fetcher (download-if-missing cache
  for Planck map files);
* `src/archive/make_planck_sims_cov_model.py` — the spectral model builder
  (per-detector power-spectrum PCA model).

The embedding models the filesystem as a function from paths to optional byte
lists, the network as a function from URLs to a transfer result, and the
library collaborators of the builder (`astropy.io.fits`, `healpy`, `sklearn`)
as oracle fields of a `World` structure.  Stateful / effectful functions are
translated into pure functions that return the new state together with an
event trace.  Real-valued pixel data is modelled over `ℚ`; the numerical
content of `anafast`, `log10` and the PCA fit is abstracted into oracles,
since every claim under examination concerns control flow, naming, caching
and data routing, not numerical analysis.
-/

/-- Bytes of a file. Each byte is a `Nat`; only the length of the content
(`st_size` in the source) and the identity of the content matter here. -/
abbrev Bytes := List Nat

/-- A local path as produced by `Path(assets_directory) / fn` in the source:
the directory part and the final component (`.name`). -/
structure FPath where
  dir : String
  name : String
deriving DecidableEq

/-- State of the local file cache: content of each path, `none` when the file
does not exist (`dest_path.exists()` is false). -/
def FS : Type := FPath → Option Bytes

/-- Error raised by `requests.get` (connection failure and the like).  The
source never catches it. -/
structure TError where
  msg : String
deriving DecidableEq

/-- The network: maps a URL to the response body, or to an uncaught transfer
error. -/
def Net : Type := String → Except TError Bytes

/-- Python `str.zfill`: pad with leading zeros up to `width`.  The sign
handling of `zfill` is irrelevant here because all inputs are decimal digit
strings of natural numbers. -/
def zfill (width : Nat) (s : String) : String :=
  if width ≤ s.length then s
  else String.mk (List.replicate (width - s.length) '0') ++ s

/-- `format_freq` from `get_maps.py`: `"{:.0f}".format(freq).zfill(3)`.
Detectors are integers throughout the repository, so the float rounding of
`"{:.0f}"` is the identity and the formatting is `Nat.repr` plus `zfill 3`. -/
def format_freq (freq : Nat) : String := zfill 3 (Nat.repr freq)

/-- `format_real` from `get_maps.py`: `"{:.0f}".format(real).zfill(5)`. -/
def format_real (real : Nat) : String := zfill 5 (Nat.repr real)

/-- Observation/half-mission URL template of `get_maps.py`; the file name is
interpolated at the end of the template string. -/
def url_template_maps (fn : String) : String :=
  "http://pla.esac.esa.int/pla/aio/product-action?MAP.MAP_ID=" ++ fn

/-- Simulated-noise URL template of `get_maps.py`. -/
def url_template_sims (fn : String) : String :=
  "http://pla.esac.esa.int/pla/aio/product-action?SIMULATED_MAP.FILE_ID=" ++ fn

/-- The `need_to_dl` flag computed by `acquire_map_data`: true when the file
does not exist, or exists with fewer than 1024 bytes (the placeholder-file
check `dest_path.stat().st_size < 1024`). -/
def need_to_dl (fs : FS) (dest_path : FPath) : Bool :=
  match fs dest_path with
  | none => true
  | some content => decide (content.length < 1024)

/-- `acquire_map_data` from `get_maps.py`.  Returns the list of URLs requested
(one network call per element) together with either the transfer error raised
by `requests.get` or the new filesystem state.  On download, the file at
`dest_path` is opened with mode `"wb"` and the full response body is written,
overwriting any previous content. -/
def acquire_map_data (fs : FS) (net : Net) (dest_path : FPath)
    (source_url_template : String → String) : List String × Except TError FS :=
  if need_to_dl fs dest_path then
    let url := source_url_template dest_path.name
    match net url with
    | Except.error e => ([url], Except.error e)
    | Except.ok content =>
        ([url], Except.ok (fun p => if p = dest_path then some content else fs p))
  else ([], Except.ok fs)

/-- The detector list from the commented-out full `DETECTORS` enumeration in
`make_planck_sims_cov_model.py` (the set of Planck frequencies the scripts are
written for). -/
def supported_detectors : List Nat := [30, 44, 70, 100, 143, 217, 353, 545, 857]

/-- The observation-map file name built by `get_planck_obs_data` from the
template `"{instrument}_SkyMap_{frequency}_{obs_nside}_{rev}_full.fits"`. -/
def obs_map_fn (detector : Nat) : String :=
  let instrument := if detector ∈ [30, 44, 70] then "LFI" else "HFI"
  let use_freq_str0 :=
    if detector ∈ [30, 44, 70] then format_freq detector ++ "-BPassCorrected"
    else format_freq detector
  let rev := if detector ∈ [30, 44, 70] then "R3.00" else "R3.01"
  let obs_nside : Nat := if detector ∈ [30, 44, 70] then 1024 else 2048
  let use_freq_str := if detector = 353 then format_freq detector ++ "-psb" else use_freq_str0
  instrument ++ "_SkyMap_" ++ use_freq_str ++ "_" ++ Nat.repr obs_nside ++ "_" ++ rev ++ "_full.fits"

/-- `get_planck_obs_data` from `get_maps.py`: build the observation file name,
acquire it, return the path.  The trace of network calls and the acquisition
outcome are threaded explicitly. -/
def get_planck_obs_data (detector : Nat) (assets_directory : String)
    (fs : FS) (net : Net) : List String × Except TError (FPath × FS) :=
  let dest_path : FPath := ⟨assets_directory, obs_map_fn detector⟩
  let r := acquire_map_data fs net dest_path url_template_maps
  (r.1, r.2.map fun fs2 => (dest_path, fs2))

/-- The noise-simulation file name built by `get_planck_noise_data` from the
template `"ffp10_noise_{frequency}_{ring_cut}_map_mc_{realization}.fits"`. -/
def planck_noise_fn (detector : Nat) (realization : Nat) : String :=
  let ring_cut := "full"
  "ffp10_noise_" ++ format_freq detector ++ "_" ++ ring_cut ++ "_map_mc_"
    ++ format_real realization ++ ".fits"

/-- The destination path of `get_planck_noise_data`:
`Path(assets_directory) / fn`. -/
def planck_noise_path (detector : Nat) (assets_directory : String)
    (realization : Nat) : FPath :=
  ⟨assets_directory, planck_noise_fn detector realization⟩

/-- `get_planck_noise_data` from `get_maps.py` (the realization defaults to 0
in the source).  Builds the file name by pure formatting — there is no lookup
keyed by the detector anywhere in this function — acquires the file, and
returns its path together with the new cache state. -/
def get_planck_noise_data (detector : Nat) (assets_directory : String)
    (realization : Nat) (fs : FS) (net : Net) :
    List String × Except TError (FPath × FS) :=
  let fn := planck_noise_path detector assets_directory realization
  let r := acquire_map_data fs net fn url_template_sims
  (r.1, r.2.map fun fs2 => (fn, fs2))

/-- Instrument selection of `get_planck_hm_data`: `"LFI"` for detectors
30/44/70, `"HFI"` otherwise. -/
def hm_instrument (detector : Nat) : String :=
  if detector ∈ [30, 44, 70] then "LFI" else "HFI"

/-- The half-mission file name built by `get_planck_hm_data` from the template
`"{instrument}_SkyMap_{freq}_2048_R3.01_halfmission-{hm}.fits"`.  Note that
the resolution `2048` and revision `R3.01` are hard-coded in the template for
every detector, and the frequency is the plain `format_freq` (no `-psb`, no
`-BPassCorrected` suffix). -/
def hm_map_fn (detector : Nat) (hm : Nat) : String :=
  hm_instrument detector ++ "_SkyMap_" ++ format_freq detector
    ++ "_2048_R3.01_halfmission-" ++ Nat.repr hm ++ ".fits"

/-- `get_planck_hm_data` from `get_maps.py`: two sequential acquisitions, the
second only reached when the first does not raise. -/
def get_planck_hm_data (detector : Nat) (assets_directory : String)
    (fs : FS) (net : Net) : List String × Except TError (FPath × FPath × FS) :=
  let hm_1_fn : FPath := ⟨assets_directory, hm_map_fn detector 1⟩
  let hm_2_fn : FPath := ⟨assets_directory, hm_map_fn detector 2⟩
  let r1 := acquire_map_data fs net hm_1_fn url_template_maps
  match r1.2 with
  | Except.error e => (r1.1, Except.error e)
  | Except.ok fs1 =>
      let r2 := acquire_map_data fs1 net hm_2_fn url_template_maps
      (r1.1 ++ r2.1, r2.2.map fun fs2 => (hm_1_fn, hm_2_fn, fs2))

/-- Substring occurrence test on character lists (used to state that a file
name does or does not contain a given marker such as `-psb`).  `listStarts n h`
is true when `n` is an initial segment of `h`. -/
def listStarts : List Char → List Char → Bool
  | [], _ => true
  | _ :: _, [] => false
  | a :: xs, b :: ys => a = b && listStarts xs ys

/-- `listSub n h` is true when `n` occurs contiguously somewhere in `h`. -/
def listSub (needle : List Char) : List Char → Bool
  | [] => listStarts needle []
  | hay@(_ :: rest) => listStarts needle hay || listSub needle rest

/-! ## Embedding of `src/archive/make_planck_sims_cov_model.py` -/

/-- Pixel values of a full-sky map as returned by `hp.read_map`; reals are
modelled as `ℚ`. -/
structure HMap where
  pix : List ℚ
deriving DecidableEq

/-- One Header Data Unit of a FITS file: its header, a partial map from
keyword to value. -/
structure HDU where
  header : String → Option String

/-- A FITS file as seen through `astropy.io.fits.open`: a list of HDUs. -/
structure FitsFile where
  hdus : List HDU

/-- The Python exceptions relevant to the builder: the `ValueError` raised on
an unknown unit, the `IndexError` from `hdul[hdu]` on a missing HDU (not
caught by the `except KeyError` handler), and the file-not-found error from
`hp.read_map` on a missing baseline-average file. -/
inductive PyErr where
  | valueError (msg : String)
  | indexError
  | fileNotFound (fn : String)
deriving DecidableEq

/-- The recognized unit strings of the builder: `["K_CMB", "MJy/sr"]`. -/
def recognizedUnits : List String := ["K_CMB", "MJy/sr"]

/-- `get_field_unit` from `make_planck_sims_cov_model.py`: look up
`TUNIT{field_idx+1}` in the header of HDU `hdu`; a missing keyword
(`KeyError`) yields `""`, while an out-of-range HDU index raises an
`IndexError` that the `except KeyError` clause does not catch. -/
def get_field_unit (f : FitsFile) (hdu : Nat) (field_idx : Nat) :
    Except PyErr String :=
  match f.hdus.get? hdu with
  | none => Except.error PyErr.indexError
  | some h =>
      let field_num := field_idx + 1
      Except.ok ((h.header ("TUNIT" ++ Nat.repr field_num)).getD "")

/-- `get_lmax_for_nside` from `make_planck_sims_cov_model.py`. -/
def get_lmax_for_nside (nside : Nat) : Nat := 3 * nside - 1

/-- The result of `sklearn.decomposition.PCA().fit`: mean vector, component
matrix, explained variances.  The fit itself is an oracle of the `World`. -/
structure PCAResult where
  mean_ps : List ℚ
  components : List (List ℚ)
  variance : List ℚ
deriving DecidableEq

/-- The environment of one `get_ps_data` run: the contents the library calls
would observe.  `fitsOf i` is the FITS structure of the noise file of
realization `i` (as opened by `get_field_unit`), `mapOf i` its pixel data (as
read by `hp.read_map`), `avgMap d` the baseline-average map of detector `d`
(`none` when the file `noise_avgs/avg_noise_map_{d}_TQU_100.fits` is absent),
and `anafast`, `log10`, `pca`, `sqrt` are the numerical library oracles. -/
structure World where
  fitsOf : Nat → FitsFile
  mapOf : Nat → HMap
  avgMap : Nat → Option HMap
  anafast : HMap → Nat → List ℚ
  log10 : ℚ → ℚ
  pca : List (List ℚ) → PCAResult
  sqrt : ℚ → ℚ

/-- `N_PLANCK_SIMS` from the source. -/
def N_PLANCK_SIMS : Nat := 100

/-- `DATA_ROOT` from the source. -/
def DATA_ROOT : String := "/shared/data/Assets/"

/-- `PLANCK_NOISE_DIR` from the source (the f-string produces a double
slash). -/
def PLANCK_NOISE_DIR : String := DATA_ROOT ++ "/PlanckNoise/"

/-- The baseline-average file name read for average-subtraction detectors. -/
def avg_noise_fn (detector : Nat) : String :=
  "noise_avgs/avg_noise_map_" ++ Nat.repr detector ++ "_TQU_100.fits"

/-- Elementwise subtraction `t_src_map -= avg` of two maps. -/
def subMap (m avg : HMap) : HMap :=
  ⟨List.zipWith (fun a b => a - b) m.pix avg.pix⟩

/-- `np.mean` over a list of rationals. -/
def listMean (xs : List ℚ) : ℚ := xs.sum / (xs.length : ℚ)

/-- Observable events of one `get_ps_data` run, in order: the baseline-average
read, the per-realization fetch through the asset fetcher, the power-spectrum
computation (`hp.anafast`, with the map actually passed and the `lmax` used),
and the archive write (`np.savez`). -/
inductive Ev where
  | loadAvg (detector : Nat)
  | fetch (realization : Nat)
  | anafast (realization : Nat) (m : HMap) (lmax : Nat)
  | writeArchive (filename : String)
deriving DecidableEq

/-- The accumulating state of the realization loop of `get_ps_data`:
`src_cls`, `maps_means`, and the Python variable `src_map_unit`, which after
the loop holds the value assigned in the final iteration. -/
structure LoopSt where
  src_cls : List (List ℚ)
  maps_means : List ℚ
  src_map_unit : String
deriving DecidableEq

/-- The archive written by `np.savez` at the end of a successful
`get_ps_data` run. -/
structure Archive where
  filename : String
  mean_ps : List ℚ
  components : List (List ℚ)
  variance : List ℚ
  maps_mean : ℚ
  maps_sd : ℚ
  maps_unit : String
deriving DecidableEq

/-- `isErr r` is true when `r` is an uncaught exception. -/
def isErr {ε α : Type _} : Except ε α → Bool
  | Except.error _ => true
  | Except.ok _ => false

/-- Whether the unit read for realization `i` passes the membership check of
the builder: the read succeeds and the value is in `recognizedUnits`. -/
def unitOkB (w : World) (i : Nat) : Bool :=
  match get_field_unit (w.fitsOf i) 1 0 with
  | Except.ok u => decide (u ∈ recognizedUnits)
  | Except.error _ => false

/-- The nside selection of `get_ps_data`:
`nside = 1024 if detector in [30, 44, 70] else 2048`. -/
def nside_for_detector (detector : Nat) : Nat :=
  if detector ∈ [30, 44, 70] then 1024 else 2048

/-- The body of the `for i in tqdm(range(N_PLANCK_SIMS))` loop of
`get_ps_data`, iterated over the remaining realization indices.  Each
iteration fetches the noise map (the fetch is recorded as an event; its cache
side effects are settled separately on the `get_maps.py` embedding), reads the
unit of field 0 of HDU 1, raises `ValueError` when the unit is not
recognized, optionally subtracts the baseline average, records the map mean,
and computes the power spectrum. -/
def psLoop (w : World) (detector : Nat) (sub : Bool) (avg : HMap) (lmax : Nat) :
    List Nat → LoopSt → List Ev × Except PyErr LoopSt
  | [], st => ([], Except.ok st)
  | i :: rest, st =>
      let src_map_fn := planck_noise_path detector PLANCK_NOISE_DIR i
      match get_field_unit (w.fitsOf i) 1 0 with
      | Except.error e => ([Ev.fetch i], Except.error e)
      | Except.ok src_map_unit =>
          if src_map_unit ∈ recognizedUnits then
            let t0 := w.mapOf i
            let t_src_map := if sub then subMap t0 avg else t0
            let st1 : LoopSt :=
              { src_cls := st.src_cls ++ [w.anafast t_src_map lmax]
                maps_means := st.maps_means ++ [listMean t_src_map.pix]
                src_map_unit := src_map_unit }
            let r := psLoop w detector sub avg lmax rest st1
            (Ev.fetch i :: Ev.anafast i t_src_map lmax :: r.1, r.2)
          else
            ([Ev.fetch i],
             Except.error (PyErr.valueError
               ("Unknown unit " ++ src_map_unit ++ " for map "
                 ++ src_map_fn.dir ++ src_map_fn.name)))

/-- The part of `get_ps_data` after the baseline-average read: derive `lmax`,
run the realization loop, and on success take `log10` of the stacked spectra,
fit the PCA, compute the mean and standard deviation of the map means, and
write the archive. -/
def psBody (w : World) (detector : Nat) (sub : Bool) (avg : HMap) :
    List Ev × Except PyErr Archive :=
  let lmax := get_lmax_for_nside (nside_for_detector detector)
  let r := psLoop w detector sub avg lmax (List.range N_PLANCK_SIMS) ⟨[], [], ""⟩
  match r.2 with
  | Except.error e => (r.1, Except.error e)
  | Except.ok st =>
      let log_src_cls := st.src_cls.map (fun cl => cl.map w.log10)
      let p := w.pca log_src_cls
      let maps_mean := listMean st.maps_means
      let maps_sd :=
        w.sqrt (listMean (st.maps_means.map (fun x => (x - maps_mean) * (x - maps_mean))))
      let ar : Archive :=
        { filename := "noise_model_" ++ Nat.repr detector ++ "GHz_diff.npz"
          mean_ps := p.mean_ps
          components := p.components
          variance := p.variance
          maps_mean := maps_mean
          maps_sd := maps_sd
          maps_unit := st.src_map_unit }
      (r.1 ++ [Ev.writeArchive ar.filename], Except.ok ar)

/-- `get_ps_data` from `make_planck_sims_cov_model.py`.  For an
average-subtraction detector the baseline map is read first (a missing file
raises before the loop runs); then the realization loop and the model fit
run as in `psBody`. -/
def get_ps_data (w : World) (detector : Nat) : List Ev × Except PyErr Archive :=
  if detector ∈ [353, 545, 857] then
    match w.avgMap detector with
    | none =>
        ([Ev.loadAvg detector],
         Except.error (PyErr.fileNotFound (avg_noise_fn detector)))
    | some avg =>
        let r := psBody w detector true avg
        (Ev.loadAvg detector :: r.1, r.2)
  else
    psBody w detector false ⟨[]⟩

/-! ## Helper lemmas about the realization loop -/

/-- The unit check of realization `i` passes exactly when the header read
succeeds and yields a recognized unit. -/
theorem unitOkB_eq_true (w : World) (i : Nat) :
    unitOkB w i = true ↔
      ∃ u, get_field_unit (w.fitsOf i) 1 0 = Except.ok u ∧ u ∈ recognizedUnits := by
  cases h : get_field_unit (w.fitsOf i) 1 0 with
  | error e => simp [unitOkB, h]
  | ok u => simp [unitOkB, h]

/-- If some realization in the remaining index list fails the unit check, the
loop ends in an uncaught exception. -/
theorem psLoop_err (w : World) (d : Nat) (sub : Bool) (avg : HMap) (lmax : Nat) :
    ∀ (l : List Nat) (st : LoopSt) (j : Nat), j ∈ l → unitOkB w j = false →
      isErr (psLoop w d sub avg lmax l st).2 = true := by
  intro l
  induction l with
  | nil => intro st j hj _; cases hj
  | cons i rest ih =>
    intro st j hj hbad
    cases hu : get_field_unit (w.fitsOf i) 1 0 with
    | error e => simp [psLoop, hu, isErr]
    | ok u =>
      by_cases hm : u ∈ recognizedUnits
      · rcases List.mem_cons.mp hj with rfl | hj2
        · exfalso; simp [unitOkB, hu, hm] at hbad
        · simp only [psLoop, hu, if_pos hm]
          exact ih _ j hj2 hbad
      · simp [psLoop, hu, hm, isErr]

/-- Every event emitted by the loop is a fetch or a power-spectrum
computation; an `anafast` event can only appear for a realization whose unit
check passed, always carries the `lmax` the loop was called with, and carries
the baseline-subtracted map exactly when subtraction is on. -/
theorem psLoop_events (w : World) (d : Nat) (sub : Bool) (avg : HMap) (lmax : Nat) :
    ∀ (l : List Nat) (st : LoopSt) (e : Ev), e ∈ (psLoop w d sub avg lmax l st).1 →
      (∃ i, e = Ev.fetch i) ∨
      (∃ i, unitOkB w i = true ∧
        e = Ev.anafast i (if sub then subMap (w.mapOf i) avg else w.mapOf i) lmax) := by
  intro l
  induction l with
  | nil => intro st e he; simp [psLoop] at he
  | cons i rest ih =>
    intro st e he
    cases hu : get_field_unit (w.fitsOf i) 1 0 with
    | error e2 =>
      simp [psLoop, hu] at he
      exact Or.inl ⟨i, he⟩
    | ok u =>
      by_cases hm : u ∈ recognizedUnits
      · simp only [psLoop, hu, if_pos hm, List.mem_cons] at he
        rcases he with rfl | rfl | he2
        · exact Or.inl ⟨i, rfl⟩
        · exact Or.inr ⟨i, by simp [unitOkB, hu, hm], rfl⟩
        · exact ih _ e he2
      · simp [psLoop, hu, hm] at he
        exact Or.inl ⟨i, he⟩

/-- When the loop finishes without an exception, the `src_map_unit` variable
holds the unit read in the final iteration. -/
theorem psLoop_ok_last (w : World) (d : Nat) (sub : Bool) (avg : HMap) (lmax : Nat) (j : Nat) :
    ∀ (l : List Nat) (st st2 : LoopSt),
      (psLoop w d sub avg lmax (l ++ [j]) st).2 = Except.ok st2 →
      ∃ u, get_field_unit (w.fitsOf j) 1 0 = Except.ok u ∧ st2.src_map_unit = u := by
  intro l
  induction l with
  | nil =>
    intro st st2 h
    cases hu : get_field_unit (w.fitsOf j) 1 0 with
    | error e => simp [psLoop, hu] at h
    | ok u =>
      by_cases hm : u ∈ recognizedUnits
      · simp only [List.nil_append, psLoop, hu, if_pos hm] at h
        refine ⟨u, rfl, ?_⟩
        simp [psLoop] at h
        rw [← h]
      · simp [psLoop, hu, hm] at h
  | cons i rest ih =>
    intro st st2 h
    cases hu : get_field_unit (w.fitsOf i) 1 0 with
    | error e => simp [psLoop, hu] at h
    | ok u =>
      by_cases hm : u ∈ recognizedUnits
      · simp only [List.cons_append, psLoop, hu, if_pos hm] at h
        exact ih _ st2 h
      · simp [psLoop, hu, hm] at h

/-- When the loop finishes without an exception, a power-spectrum event was
emitted for every realization in the list. -/
theorem psLoop_ok_events (w : World) (d : Nat) (sub : Bool) (avg : HMap) (lmax : Nat) :
    ∀ (l : List Nat) (st st2 : LoopSt),
      (psLoop w d sub avg lmax l st).2 = Except.ok st2 →
      ∀ i ∈ l, Ev.anafast i (if sub then subMap (w.mapOf i) avg else w.mapOf i) lmax
        ∈ (psLoop w d sub avg lmax l st).1 := by
  intro l
  induction l with
  | nil => intro st st2 _ i hi; cases hi
  | cons i rest ih =>
    intro st st2 h i2 hi2
    cases hu : get_field_unit (w.fitsOf i) 1 0 with
    | error e => simp [psLoop, hu] at h
    | ok u =>
      by_cases hm : u ∈ recognizedUnits
      · simp only [psLoop, hu, if_pos hm] at h ⊢
        rcases List.mem_cons.mp hi2 with rfl | hi3
        · simp
        · simp only [List.mem_cons]
          exact Or.inr (Or.inr (ih _ st2 h i2 hi3))
      · simp [psLoop, hu, hm] at h

/-- Frame property of the loop: two environments that agree on the pixel data
and the spectrum oracle, and whose unit checks all pass, produce identical
event traces and identical accumulated spectra and map means — the unit
strings themselves influence nothing but the `src_map_unit` variable. -/
theorem psLoop_frame (w w' : World) (d : Nat) (sub : Bool) (avg : HMap) (lmax : Nat)
    (hmap : w'.mapOf = w.mapOf) (hana : w'.anafast = w.anafast) :
    ∀ (l : List Nat) (st st' : LoopSt),
      st.src_cls = st'.src_cls → st.maps_means = st'.maps_means →
      (∀ j ∈ l, unitOkB w j = true) → (∀ j ∈ l, unitOkB w' j = true) →
      (psLoop w' d sub avg lmax l st').1 = (psLoop w d sub avg lmax l st).1 ∧
      ∃ t t', (psLoop w d sub avg lmax l st).2 = Except.ok t ∧
        (psLoop w' d sub avg lmax l st').2 = Except.ok t' ∧
        t.src_cls = t'.src_cls ∧ t.maps_means = t'.maps_means := by
  intro l
  induction l with
  | nil =>
    intro st st' h1 h2 _ _
    exact ⟨rfl, st, st', rfl, rfl, h1, h2⟩
  | cons i rest ih =>
    intro st st' h1 h2 hw hw'
    rcases (unitOkB_eq_true w i).mp (hw i (List.mem_cons_self i rest)) with ⟨u, hu, hm⟩
    rcases (unitOkB_eq_true w' i).mp (hw' i (List.mem_cons_self i rest)) with ⟨u', hu', hm'⟩
    have hrest := ih
      ({ src_cls := st.src_cls ++ [w.anafast (if sub then subMap (w.mapOf i) avg else w.mapOf i) lmax]
         maps_means := st.maps_means ++ [listMean (if sub then subMap (w.mapOf i) avg else w.mapOf i).pix]
         src_map_unit := u })
      ({ src_cls := st'.src_cls ++ [w'.anafast (if sub then subMap (w'.mapOf i) avg else w'.mapOf i) lmax]
         maps_means := st'.maps_means ++ [listMean (if sub then subMap (w'.mapOf i) avg else w'.mapOf i).pix]
         src_map_unit := u' })
      (by rw [h1, hmap, hana]) (by rw [h2, hmap])
      (fun j hj => hw j (List.mem_cons_of_mem i hj))
      (fun j hj => hw' j (List.mem_cons_of_mem i hj))
    rw [hmap, hana] at hrest
    constructor
    · simp only [psLoop, hu, if_pos hm, hu', if_pos hm']
      rw [hmap, hana, hrest.1]
    · simp only [psLoop, hu, if_pos hm, hu', if_pos hm']
      rw [hmap, hana]
      exact hrest.2

/-! ## Helper lemmas about `psBody` and `get_ps_data` -/

/-- A realization with a failed unit check makes `psBody` raise; its spectrum
is never computed and no archive is written. -/
theorem psBody_err (w : World) (d : Nat) (sub : Bool) (avg : HMap) (j : Nat)
    (hj : j < N_PLANCK_SIMS) (hbad : unitOkB w j = false) :
    isErr (psBody w d sub avg).2 = true ∧
    (∀ m lm, Ev.anafast j m lm ∉ (psBody w d sub avg).1) ∧
    (∀ s, Ev.writeArchive s ∉ (psBody w d sub avg).1) := by
  have herr := psLoop_err w d sub avg (get_lmax_for_nside (nside_for_detector d))
      (List.range N_PLANCK_SIMS) ⟨[], [], ""⟩ j (List.mem_range.mpr hj) hbad
  cases hr : (psLoop w d sub avg (get_lmax_for_nside (nside_for_detector d))
      (List.range N_PLANCK_SIMS) ⟨[], [], ""⟩).2 with
  | ok st => rw [hr] at herr; simp [isErr] at herr
  | error e =>
    have htr : (psBody w d sub avg).1
        = (psLoop w d sub avg (get_lmax_for_nside (nside_for_detector d))
            (List.range N_PLANCK_SIMS) ⟨[], [], ""⟩).1 := by
      simp [psBody, hr]
    refine ⟨by simp [psBody, hr, isErr], ?_, ?_⟩
    · intro m lm hmm
      rw [htr] at hmm
      rcases psLoop_events w d sub avg _ _ _ _ hmm with ⟨i, hi⟩ | ⟨i, hok, hi⟩
      · simp at hi
      · injection hi with h1 h2 h3
        subst h1
        simp [hbad] at hok
    · intro s hmm
      rw [htr] at hmm
      rcases psLoop_events w d sub avg _ _ _ _ hmm with ⟨i, hi⟩ | ⟨i, _, hi⟩
      · simp at hi
      · simp at hi

/-- Characterization of the `anafast` events of `psBody`: the unit check of
the realization passed, the `lmax` is the one derived from the detector's
nside, and the map is baseline-subtracted exactly when subtraction is on. -/
theorem psBody_anafast (w : World) (d : Nat) (sub : Bool) (avg : HMap)
    (i : Nat) (m : HMap) (lm : Nat)
    (hmm : Ev.anafast i m lm ∈ (psBody w d sub avg).1) :
    unitOkB w i = true ∧ lm = get_lmax_for_nside (nside_for_detector d) ∧
    m = (if sub then subMap (w.mapOf i) avg else w.mapOf i) := by
  cases hr : (psLoop w d sub avg (get_lmax_for_nside (nside_for_detector d))
      (List.range N_PLANCK_SIMS) ⟨[], [], ""⟩).2 with
  | error e =>
    have htr : (psBody w d sub avg).1
        = (psLoop w d sub avg (get_lmax_for_nside (nside_for_detector d))
            (List.range N_PLANCK_SIMS) ⟨[], [], ""⟩).1 := by
      simp [psBody, hr]
    rw [htr] at hmm
    rcases psLoop_events w d sub avg _ _ _ _ hmm with ⟨i2, hi⟩ | ⟨i2, hok, hi⟩
    · simp at hi
    · injection hi with h1 h2 h3
      subst h1; subst h2; subst h3
      exact ⟨hok, rfl, rfl⟩
  | ok st =>
    have htr : (psBody w d sub avg).1
        = (psLoop w d sub avg (get_lmax_for_nside (nside_for_detector d))
            (List.range N_PLANCK_SIMS) ⟨[], [], ""⟩).1
          ++ [Ev.writeArchive ("noise_model_" ++ Nat.repr d ++ "GHz_diff.npz")] := by
      simp [psBody, hr]
    rw [htr] at hmm
    rcases List.mem_append.mp hmm with hmm2 | hmm2
    · rcases psLoop_events w d sub avg _ _ _ _ hmm2 with ⟨i2, hi⟩ | ⟨i2, hok, hi⟩
      · simp at hi
      · injection hi with h1 h2 h3
        subst h1; subst h2; subst h3
        exact ⟨hok, rfl, rfl⟩
    · simp at hmm2

/-- `psBody` never reads the baseline-average file. -/
theorem psBody_no_loadAvg (w : World) (d : Nat) (sub : Bool) (avg : HMap) :
    ∀ df, Ev.loadAvg df ∉ (psBody w d sub avg).1 := by
  intro df hmm
  cases hr : (psLoop w d sub avg (get_lmax_for_nside (nside_for_detector d))
      (List.range N_PLANCK_SIMS) ⟨[], [], ""⟩).2 with
  | error e =>
    have htr : (psBody w d sub avg).1
        = (psLoop w d sub avg (get_lmax_for_nside (nside_for_detector d))
            (List.range N_PLANCK_SIMS) ⟨[], [], ""⟩).1 := by
      simp [psBody, hr]
    rw [htr] at hmm
    rcases psLoop_events w d sub avg _ _ _ _ hmm with ⟨i2, hi⟩ | ⟨i2, _, hi⟩ <;> simp at hi
  | ok st =>
    have htr : (psBody w d sub avg).1
        = (psLoop w d sub avg (get_lmax_for_nside (nside_for_detector d))
            (List.range N_PLANCK_SIMS) ⟨[], [], ""⟩).1
          ++ [Ev.writeArchive ("noise_model_" ++ Nat.repr d ++ "GHz_diff.npz")] := by
      simp [psBody, hr]
    rw [htr] at hmm
    rcases List.mem_append.mp hmm with hmm2 | hmm2
    · rcases psLoop_events w d sub avg _ _ _ _ hmm2 with ⟨i2, hi⟩ | ⟨i2, _, hi⟩ <;> simp at hi
    · simp at hmm2

/-- On a successful `psBody` run, the archived unit label is the unit read
from the final realization (index `N_PLANCK_SIMS - 1`). -/
theorem psBody_ok_unit (w : World) (d : Nat) (sub : Bool) (avg : HMap) (ar : Archive)
    (h : (psBody w d sub avg).2 = Except.ok ar) :
    ∃ u, get_field_unit (w.fitsOf (N_PLANCK_SIMS - 1)) 1 0 = Except.ok u ∧
      ar.maps_unit = u := by
  cases hr : (psLoop w d sub avg (get_lmax_for_nside (nside_for_detector d))
      (List.range N_PLANCK_SIMS) ⟨[], [], ""⟩).2 with
  | error e => simp [psBody, hr] at h
  | ok st =>
    have har : ar.maps_unit = st.src_map_unit := by
      simp [psBody, hr] at h
      rw [← h]
    have hsplit : List.range N_PLANCK_SIMS = List.range 99 ++ [99] := by
      rw [show N_PLANCK_SIMS = 99 + 1 from rfl, List.range_succ]
    rw [hsplit] at hr
    obtain ⟨u, hu, hst⟩ := psLoop_ok_last w d sub avg _ 99 (List.range 99) ⟨[], [], ""⟩ st hr
    exact ⟨u, hu, by rw [har, hst]⟩

/-- On a successful `psBody` run, a power-spectrum event was emitted for every
realization index below `N_PLANCK_SIMS`. -/
theorem psBody_ok_events (w : World) (d : Nat) (sub : Bool) (avg : HMap) (ar : Archive)
    (h : (psBody w d sub avg).2 = Except.ok ar) :
    ∀ i, i < N_PLANCK_SIMS →
      Ev.anafast i (if sub then subMap (w.mapOf i) avg else w.mapOf i)
        (get_lmax_for_nside (nside_for_detector d)) ∈ (psBody w d sub avg).1 := by
  cases hr : (psLoop w d sub avg (get_lmax_for_nside (nside_for_detector d))
      (List.range N_PLANCK_SIMS) ⟨[], [], ""⟩).2 with
  | error e => simp [psBody, hr] at h
  | ok st =>
    intro i hi
    have hmem := psLoop_ok_events w d sub avg _ _ _ _ hr i (List.mem_range.mpr hi)
    have htr : (psBody w d sub avg).1
        = (psLoop w d sub avg (get_lmax_for_nside (nside_for_detector d))
            (List.range N_PLANCK_SIMS) ⟨[], [], ""⟩).1
          ++ [Ev.writeArchive ("noise_model_" ++ Nat.repr d ++ "GHz_diff.npz")] := by
      simp [psBody, hr]
    rw [htr]
    exact List.mem_append_left _ hmem

/-- Frame property of `psBody`: the outcome (trace and archive) does not
depend on the unit strings of realizations other than the last, provided
every unit check passes in both environments. -/
theorem psBody_frame (w w' : World) (d : Nat) (sub : Bool) (avg : HMap)
    (hmap : w'.mapOf = w.mapOf) (hana : w'.anafast = w.anafast)
    (hlog : w'.log10 = w.log10) (hpca : w'.pca = w.pca) (hsqrt : w'.sqrt = w.sqrt)
    (hw : ∀ j, j < N_PLANCK_SIMS → unitOkB w j = true)
    (hw' : ∀ j, j < N_PLANCK_SIMS → unitOkB w' j = true)
    (hlast : get_field_unit (w'.fitsOf (N_PLANCK_SIMS - 1)) 1 0
        = get_field_unit (w.fitsOf (N_PLANCK_SIMS - 1)) 1 0) :
    psBody w' d sub avg = psBody w d sub avg := by
  obtain ⟨htr, t, t', hok, hok', hcls, hmeans⟩ :=
    psLoop_frame w w' d sub avg (get_lmax_for_nside (nside_for_detector d))
      hmap hana (List.range N_PLANCK_SIMS) ⟨[], [], ""⟩ ⟨[], [], ""⟩ rfl rfl
      (fun j hj => hw j (List.mem_range.mp hj))
      (fun j hj => hw' j (List.mem_range.mp hj))
  have hsplit : List.range N_PLANCK_SIMS = List.range 99 ++ [99] := by
    rw [show N_PLANCK_SIMS = 99 + 1 from rfl, List.range_succ]
  obtain ⟨u, hu, ht⟩ := psLoop_ok_last w d sub avg _ 99 (List.range 99) ⟨[], [], ""⟩ t
    (by rw [← hsplit]; exact hok)
  obtain ⟨u', hu', ht'⟩ := psLoop_ok_last w' d sub avg _ 99 (List.range 99) ⟨[], [], ""⟩ t'
    (by rw [← hsplit]; exact hok')
  have hlast99 : get_field_unit (w'.fitsOf 99) 1 0 = get_field_unit (w.fitsOf 99) 1 0 := hlast
  rw [hu, hu'] at hlast99
  have huu : u' = u := by injection hlast99
  have htt : t = t' := by
    cases t
    cases t'
    dsimp at hcls hmeans ht ht'
    subst hcls; subst hmeans; subst ht; subst ht'
    rw [huu]
  simp only [psBody, hok, hok']
  rw [htr, htt, hlog, hpca, hsqrt]

/-! ## Formatting lemmas -/

/-- The length of a zero-padded string is the maximum of the width and the
original length. -/
theorem zfill_length (width : Nat) (s : String) :
    (zfill width s).length = max width s.length := by
  unfold zfill
  by_cases h : width ≤ s.length
  · simp [h, Nat.max_eq_right h]
  · simp [h, String.length_append, String.length_mk, List.length_replicate]
    omega

/-- Zero-padding is idempotent. -/
theorem zfill_idem (width : Nat) (s : String) :
    zfill width (zfill width s) = zfill width s := by
  have hl : width ≤ (zfill width s).length := by
    rw [zfill_length]; exact Nat.le_max_left _ _
  show (if width ≤ (zfill width s).length then zfill width s
        else String.mk (List.replicate (width - (zfill width s).length) '0')
          ++ zfill width s) = zfill width s
  rw [if_pos hl]

/-! ## Claim theorems -/

set_option maxRecDepth 4000 in
/-- Claim C8: filename formatting is idempotent and zero-padded — frequency
545 formats to "545", realization 7 to "00007" and realization 100 to
"00100"; the padding transform is idempotent; the frequency code has 3 digits
for every supported detector and the realization index has 5 digits for every
realization below 300 (the source notes 300 realizations are available). -/
theorem c8_formatting :
    format_freq 545 = "545" ∧ format_real 7 = "00007" ∧ format_real 100 = "00100" ∧
    (∀ width s, zfill width (zfill width s) = zfill width s) ∧
    (∀ d, d ∈ supported_detectors → (format_freq d).length = 3) ∧
    (∀ r, r < 300 → (format_real r).length = 5) :=
  ⟨by decide, by decide, by decide, zfill_idem, by decide, by decide⟩

/-- Witness for C8 at concrete inputs 545 and 100. -/
theorem c8_formatting_witness :
    (format_freq 545).length = 3 ∧ (format_real 100).length = 5 :=
  ⟨c8_formatting.2.2.2.2.1 545 (by decide), c8_formatting.2.2.2.2.2 100 (by decide)⟩

/-- Claim C1: the acquisition policy shared by all three resolvers (each
applies `acquire_map_data` to its target file): a present file of at least
1024 bytes causes no network call and leaves the filesystem unchanged; an
absent or undersized file causes exactly one network call, after which the
target path holds exactly the response body and every other path is
untouched. -/
theorem c1_acquisition_policy :
    ∀ (fs : FS) (net : Net) (dest : FPath) (tmpl : String → String) (body : Bytes),
      (∀ c, fs dest = some c → 1024 ≤ c.length →
          acquire_map_data fs net dest tmpl = ([], Except.ok fs)) ∧
      ((fs dest = none ∨ ∃ c, fs dest = some c ∧ c.length < 1024) →
        net (tmpl dest.name) = Except.ok body →
          acquire_map_data fs net dest tmpl
            = ([tmpl dest.name],
               Except.ok (fun p => if p = dest then some body else fs p))) ∧
      (∀ d dir rz, get_planck_noise_data d dir rz fs net
          = ((acquire_map_data fs net (planck_noise_path d dir rz) url_template_sims).1,
             (acquire_map_data fs net (planck_noise_path d dir rz) url_template_sims).2.map
               (fun fs2 => (planck_noise_path d dir rz, fs2)))) ∧
      (∀ d dir, get_planck_obs_data d dir fs net
          = ((acquire_map_data fs net ⟨dir, obs_map_fn d⟩ url_template_maps).1,
             (acquire_map_data fs net ⟨dir, obs_map_fn d⟩ url_template_maps).2.map
               (fun fs2 => ((⟨dir, obs_map_fn d⟩ : FPath), fs2)))) ∧
      (∀ d dir fs1,
        (acquire_map_data fs net ⟨dir, hm_map_fn d 1⟩ url_template_maps).2 = Except.ok fs1 →
          get_planck_hm_data d dir fs net
            = ((acquire_map_data fs net ⟨dir, hm_map_fn d 1⟩ url_template_maps).1
                ++ (acquire_map_data fs1 net ⟨dir, hm_map_fn d 2⟩ url_template_maps).1,
               (acquire_map_data fs1 net ⟨dir, hm_map_fn d 2⟩ url_template_maps).2.map
                 (fun fs2 =>
                   ((⟨dir, hm_map_fn d 1⟩ : FPath), (⟨dir, hm_map_fn d 2⟩ : FPath), fs2)))) := by
  intro fs net dest tmpl body
  refine ⟨?_, ?_, fun d dir rz => rfl, fun d dir => rfl, ?_⟩
  · intro c hc hlen
    have hn : need_to_dl fs dest = false := by
      simp [need_to_dl, hc]
      omega
    simp [acquire_map_data, hn]
  · intro hd hnet
    have hn : need_to_dl fs dest = true := by
      rcases hd with h | ⟨c, hc, hlen⟩
      · simp [need_to_dl, h]
      · simp [need_to_dl, hc, hlen]
    simp [acquire_map_data, hn, hnet]
  · intro d dir fs1 h1
    simp [get_planck_hm_data, h1]

/-- An empty local cache. -/
def fsEmpty : FS := fun _ => none

/-- A network that always answers with the one-byte body `[7]`. -/
def netOne : Net := fun _ => Except.ok [7]

/-- Witness for C1: downloading into an empty cache makes exactly one call
and stores the response body. -/
theorem c1_acquisition_policy_witness :
    acquire_map_data fsEmpty netOne ⟨"d", "f.fits"⟩ (fun s => "u" ++ s)
      = (["uf.fits"],
         Except.ok (fun p => if p = ⟨"d", "f.fits"⟩ then some [7] else fsEmpty p)) :=
  (c1_acquisition_policy fsEmpty netOne ⟨"d", "f.fits"⟩ (fun s => "u" ++ s) [7]).2.1
    (Or.inl rfl) rfl

/-- Claim C7: a failing network retrieval surfaces unhandled — the fetcher
makes at most one network call per target (no retry, no backoff), forwards
the transfer error as is (also through `get_planck_noise_data`), and the only
condition it absorbs silently is the absent-or-undersized file that triggers
acquisition: no download happens exactly when the file exists with at least
1024 bytes. -/
theorem c7_error_propagation :
    ∀ (fs : FS) (net : Net) (dest : FPath) (tmpl : String → String) (e : TError),
      (need_to_dl fs dest = true → net (tmpl dest.name) = Except.error e →
        acquire_map_data fs net dest tmpl = ([tmpl dest.name], Except.error e)) ∧
      (acquire_map_data fs net dest tmpl).1.length ≤ 1 ∧
      (need_to_dl fs dest = false ↔ ∃ c, fs dest = some c ∧ 1024 ≤ c.length) ∧
      (∀ d dir rz, need_to_dl fs (planck_noise_path d dir rz) = true →
        net (url_template_sims (planck_noise_path d dir rz).name) = Except.error e →
        (get_planck_noise_data d dir rz fs net).2 = Except.error e) := by
  intro fs net dest tmpl e
  refine ⟨?_, ?_, ⟨?_, ?_⟩, ?_⟩
  · intro hn hnet
    simp [acquire_map_data, hn, hnet]
  · unfold acquire_map_data
    by_cases hn : need_to_dl fs dest
    · simp only [hn, if_pos]
      cases net (tmpl dest.name) <;> simp
    · simp [hn]
  · intro hn
    unfold need_to_dl at hn
    cases hc : fs dest with
    | none => rw [hc] at hn; simp at hn
    | some c =>
      rw [hc] at hn
      simp at hn
      exact ⟨c, rfl, hn⟩
  · rintro ⟨c, hc, hlen⟩
    simp [need_to_dl, hc]
    omega
  · intro d dir rz hn hnet
    simp [get_planck_noise_data, acquire_map_data, hn, hnet, Except.map]

/-- A network that always fails. -/
def netFail : Net := fun _ => Except.error ⟨"connection refused"⟩

/-- Witness for C7: a failed download of a missing file surfaces the transfer
error after exactly one call. -/
theorem c7_error_propagation_witness :
    acquire_map_data fsEmpty netFail ⟨"d", "g.fits"⟩ (fun s => "v" ++ s)
      = (["vg.fits"], Except.error ⟨"connection refused"⟩) :=
  (c7_error_propagation fsEmpty netFail ⟨"d", "g.fits"⟩ (fun s => "v" ++ s)
    ⟨"connection refused"⟩).1 rfl rfl

/-- A cache in which every file exists with exactly 1024 zero bytes. -/
def fsBig : FS := fun _ => some (List.replicate 1024 0)

/-- Counterexample to claim C2: detector 999 is outside the supported set,
yet `get_planck_noise_data` does not fail at all — the file name is produced
by pure zero-padded formatting, there is no naming-scheme lookup that could
raise, and the resolver returns the path normally. -/
theorem c2_counterexample :
    (999 ∉ supported_detectors) ∧
    get_planck_noise_data 999 "assets" 0 fsBig netOne
      = ([], Except.ok (⟨"assets", "ffp10_noise_999_full_map_mc_00000.fits"⟩, fsBig)) :=
  ⟨by decide, rfl⟩

/-- Amended C2: `get_planck_noise_data` performs no detector validation and
has no `InvalidDetectorError` failure mode.  For every integer detector —
supported or not — the name is built by total zero-padded formatting and the
resolver proceeds; its only possible failure is the transfer error raised by
the network request itself. -/
theorem c2_amended_no_validation :
    ∀ (detector : Nat) (dir : String) (rz : Nat) (fs : FS) (net : Net),
      (∀ c, fs (planck_noise_path detector dir rz) = some c → 1024 ≤ c.length →
        get_planck_noise_data detector dir rz fs net
          = ([], Except.ok (planck_noise_path detector dir rz, fs))) ∧
      (∀ e, (get_planck_noise_data detector dir rz fs net).2 = Except.error e →
        net (url_template_sims (planck_noise_path detector dir rz).name)
          = Except.error e) := by
  intro detector dir rz fs net
  constructor
  · intro c hc hlen
    have hn : need_to_dl fs (planck_noise_path detector dir rz) = false := by
      simp [need_to_dl, hc]
      omega
    simp [get_planck_noise_data, acquire_map_data, hn, Except.map]
  · intro e he
    by_cases hn : need_to_dl fs (planck_noise_path detector dir rz)
    · cases hnet : net (url_template_sims (planck_noise_path detector dir rz).name) with
      | error e2 =>
        simp [get_planck_noise_data, acquire_map_data, hn, hnet, Except.map] at he
        rw [he]
      | ok b =>
        simp [get_planck_noise_data, acquire_map_data, hn, hnet, Except.map] at he
    · simp [get_planck_noise_data, acquire_map_data, hn, Except.map] at he

/-- Witness for the amended C2 at the out-of-set detector 999: resolution
succeeds for a cached file without touching the network. -/
theorem c2_amended_no_validation_witness :
    get_planck_noise_data 999 "assets2" 3 fsBig netFail
      = ([], Except.ok (planck_noise_path 999 "assets2" 3, fsBig)) :=
  (c2_amended_no_validation 999 "assets2" 3 fsBig netFail).1
    (List.replicate 1024 0) rfl (by simp)

/-- Counterexample to claim C4: the half-mission file name of detector 30
contains the resolution 2048 (not the lower LFI resolution the claim
asserts), and the half-mission file name of detector 353 does not contain the
`-psb` polarization-sensitive-bolometer suffix the claim asserts — that
suffix appears only in the full-mission observation file name. -/
theorem c4_counterexample :
    hm_map_fn 30 1 = "LFI_SkyMap_030_2048_R3.01_halfmission-1.fits" ∧
    listSub ("1024".data) ((hm_map_fn 30 1).data) = false ∧
    hm_map_fn 353 1 = "HFI_SkyMap_353_2048_R3.01_halfmission-1.fits" ∧
    listSub ("-psb".data) ((hm_map_fn 353 1).data) = false ∧
    listSub ("-psb".data) ((obs_map_fn 353).data) = true :=
  ⟨by decide, by decide, by decide, by decide, by decide⟩

/-- Amended C4: in `get_planck_hm_data` only the instrument family depends on
the detector (LFI for 30/44/70, HFI otherwise — the same family rule as the
full-mission resolver); the file name resolution is fixed at 2048 with
revision R3.01 for every detector, with the plain zero-padded frequency (no
psb and no BPassCorrected suffix), and on success the resolver returns
exactly the two half-mission paths so named. -/
theorem c4_amended_hm_naming :
    ∀ (d hm : Nat),
      (d ∈ [30, 44, 70] → hm_instrument d = "LFI") ∧
      (d ∉ [30, 44, 70] → hm_instrument d = "HFI") ∧
      (hm_map_fn d hm = hm_instrument d ++ "_SkyMap_" ++ format_freq d
          ++ "_2048_R3.01_halfmission-" ++ Nat.repr hm ++ ".fits") ∧
      (∀ (dir : String) (fs : FS) (net : Net) (p1 p2 : FPath) (fs2 : FS),
        (get_planck_hm_data d dir fs net).2 = Except.ok (p1, p2, fs2) →
          p1 = ⟨dir, hm_map_fn d 1⟩ ∧ p2 = ⟨dir, hm_map_fn d 2⟩) := by
  intro d hm
  refine ⟨?_, ?_, rfl, ?_⟩
  · intro h
    simp [hm_instrument, h]
  · intro h
    simp [hm_instrument, h]
  · intro dir fs net p1 p2 fs2 h
    cases h1 : (acquire_map_data fs net ⟨dir, hm_map_fn d 1⟩ url_template_maps).2 with
    | error e => simp [get_planck_hm_data, h1] at h
    | ok fs1 =>
      cases h2 : (acquire_map_data fs1 net ⟨dir, hm_map_fn d 2⟩ url_template_maps).2 with
      | error e => simp [get_planck_hm_data, h1, h2, Except.map] at h
      | ok fs3 =>
        simp [get_planck_hm_data, h1, h2, Except.map] at h
        exact ⟨h.1.symm, h.2.1.symm⟩

/-- Witness for the amended C4: the family rule at detectors 30 and 353, and
the returned half-mission paths for a fully cached detector 100. -/
theorem c4_amended_hm_naming_witness :
    hm_instrument 30 = "LFI" ∧ hm_instrument 353 = "HFI" ∧
    ((⟨"a", hm_map_fn 100 1⟩ : FPath) = ⟨"a", hm_map_fn 100 1⟩ ∧
     (⟨"a", hm_map_fn 100 2⟩ : FPath) = ⟨"a", hm_map_fn 100 2⟩) :=
  ⟨(c4_amended_hm_naming 30 1).1 (by decide),
   (c4_amended_hm_naming 353 1).2.1 (by decide),
   (c4_amended_hm_naming 100 1).2.2.2 "a" fsBig netOne
     ⟨"a", hm_map_fn 100 1⟩ ⟨"a", hm_map_fn 100 2⟩ fsBig rfl⟩

/-- Claim C5: detectors 30/44/70 resolve nside 1024 with maximum multipole
3071; every other detector resolves nside 2048 with maximum multipole 6143;
the multipole bound is 3 × nside − 1; and every power-spectrum computation of
a `get_ps_data` run uses exactly that bound. -/
theorem c5_resolution_lmax :
    ∀ d : Nat,
      (d ∈ [30, 44, 70] → nside_for_detector d = 1024 ∧
        get_lmax_for_nside (nside_for_detector d) = 3071) ∧
      (d ∉ [30, 44, 70] → nside_for_detector d = 2048 ∧
        get_lmax_for_nside (nside_for_detector d) = 6143) ∧
      get_lmax_for_nside (nside_for_detector d) = 3 * nside_for_detector d - 1 ∧
      (∀ (w : World) (i : Nat) (m : HMap) (lm : Nat),
        Ev.anafast i m lm ∈ (get_ps_data w d).1 →
          lm = get_lmax_for_nside (nside_for_detector d)) := by
  intro d
  refine ⟨?_, ?_, rfl, ?_⟩
  · intro h
    constructor
    · simp [nside_for_detector, h]
    · simp [nside_for_detector, h, get_lmax_for_nside]
  · intro h
    constructor
    · simp [nside_for_detector, h]
    · simp [nside_for_detector, h, get_lmax_for_nside]
  · intro w i m lm hmm
    by_cases hd : d ∈ [353, 545, 857]
    · cases havg : w.avgMap d with
      | none => simp [get_ps_data, hd, havg] at hmm
      | some avg =>
        have htr : (get_ps_data w d).1 = Ev.loadAvg d :: (psBody w d true avg).1 := by
          simp [get_ps_data, hd, havg]
        rw [htr] at hmm
        rcases List.mem_cons.mp hmm with h2 | h2
        · simp at h2
        · exact (psBody_anafast w d true avg i m lm h2).2.1
    · have htr : (get_ps_data w d).1 = (psBody w d false ⟨[]⟩).1 := by
        simp [get_ps_data, hd]
      rw [htr] at hmm
      exact (psBody_anafast w d false ⟨[]⟩ i m lm hmm).2.1

/-- Witness for C5 at detectors 70 and 100. -/
theorem c5_resolution_lmax_witness :
    (nside_for_detector 70 = 1024 ∧ get_lmax_for_nside (nside_for_detector 70) = 3071) ∧
    (nside_for_detector 100 = 2048 ∧ get_lmax_for_nside (nside_for_detector 100) = 6143) :=
  ⟨(c5_resolution_lmax 70).1 (by decide), (c5_resolution_lmax 100).2.1 (by decide)⟩

/-- Shared helper: a realization below `N_PLANCK_SIMS` whose unit check fails
makes the whole `get_ps_data` run raise, its spectrum is never computed, and
no archive-write event occurs. -/
theorem get_ps_data_err (w : World) (d j : Nat) (hj : j < N_PLANCK_SIMS)
    (hbad : unitOkB w j = false) :
    isErr (get_ps_data w d).2 = true ∧
    (∀ m lm, Ev.anafast j m lm ∉ (get_ps_data w d).1) ∧
    (∀ s, Ev.writeArchive s ∉ (get_ps_data w d).1) := by
  by_cases hd : d ∈ [353, 545, 857]
  · cases havg : w.avgMap d with
    | none =>
      refine ⟨by simp [get_ps_data, hd, havg, isErr], ?_, ?_⟩
      · intro m lm hmm
        simp [get_ps_data, hd, havg] at hmm
      · intro s hmm
        simp [get_ps_data, hd, havg] at hmm
    | some avg =>
      obtain ⟨he, hana, harch⟩ := psBody_err w d true avg j hj hbad
      have htr : (get_ps_data w d).1 = Ev.loadAvg d :: (psBody w d true avg).1 := by
        simp [get_ps_data, hd, havg]
      have h2 : (get_ps_data w d).2 = (psBody w d true avg).2 := by
        simp [get_ps_data, hd, havg]
      refine ⟨by rw [h2]; exact he, ?_, ?_⟩
      · intro m lm hmm
        rw [htr] at hmm
        rcases List.mem_cons.mp hmm with hx | hx
        · simp at hx
        · exact hana m lm hx
      · intro s hmm
        rw [htr] at hmm
        rcases List.mem_cons.mp hmm with hx | hx
        · simp at hx
        · exact harch s hx
  · obtain ⟨he, hana, harch⟩ := psBody_err w d false ⟨[]⟩ j hj hbad
    have htr : (get_ps_data w d).1 = (psBody w d false ⟨[]⟩).1 := by
      simp [get_ps_data, hd]
    have h2 : (get_ps_data w d).2 = (psBody w d false ⟨[]⟩).2 := by
      simp [get_ps_data, hd]
    refine ⟨by rw [h2]; exact he, ?_, ?_⟩
    · intro m lm hmm
      rw [htr] at hmm
      exact hana m lm hmm
    · intro s hmm
      rw [htr] at hmm
      exact harch s hmm

/-- Claim C3: when some realization of a `get_ps_data` run reports a unit
outside the recognized set, the builder raises, the power spectrum of that
realization is never computed, and no archive is written for the detector. -/
theorem c3_unit_abort :
    ∀ (w : World) (d j : Nat), j < N_PLANCK_SIMS →
      (∃ u, get_field_unit (w.fitsOf j) 1 0 = Except.ok u ∧ u ∉ recognizedUnits) →
      isErr (get_ps_data w d).2 = true ∧
      (∀ m lm, Ev.anafast j m lm ∉ (get_ps_data w d).1) ∧
      (∀ s, Ev.writeArchive s ∉ (get_ps_data w d).1) := by
  intro w d j hj hbad0
  have hbad : unitOkB w j = false := by
    obtain ⟨u, hu, hmem⟩ := hbad0
    simp [unitOkB, hu, hmem]
  exact get_ps_data_err w d j hj hbad

/-- A map with no pixels, used for concrete witness environments. -/
def mapZero : HMap := ⟨[]⟩

/-- A degenerate PCA result for concrete witness environments. -/
def pcaZero : PCAResult := ⟨[], [], []⟩

/-- An HDU declaring the unrecognized unit "BadUnit" in `TUNIT1`. -/
def hduBad : HDU := ⟨fun k => if k = "TUNIT1" then some "BadUnit" else none⟩

/-- A FITS file whose HDU 1 declares the unit "BadUnit". -/
def fitsBad : FitsFile := ⟨[hduBad, hduBad]⟩

/-- An environment in which every realization reports the unit "BadUnit". -/
def wBad : World :=
  ⟨fun _ => fitsBad, fun _ => mapZero, fun _ => none, fun _ _ => [],
   id, fun _ => pcaZero, id⟩

/-- Witness for C3: realization 0 of detector 100 reports "BadUnit", so the
run raises, computes no spectrum for it, and writes no archive. -/
theorem c3_unit_abort_witness :
    isErr (get_ps_data wBad 100).2 = true ∧
    (∀ m lm, Ev.anafast 0 m lm ∉ (get_ps_data wBad 100).1) ∧
    (∀ s, Ev.writeArchive s ∉ (get_ps_data wBad 100).1) :=
  c3_unit_abort wBad 100 0 (by decide) ⟨"BadUnit", rfl, by decide⟩

/-- Claim C9: a map file whose header lacks the `TUNIT` keyword of the
requested field yields the empty string from `get_field_unit` instead of an
exception, and the empty string fails the recognized-unit membership check,
so a unit-less map aborts the detector run exactly like an unrecognized
unit: the run raises and no archive is written. -/
theorem c9_missing_unit_keyword :
    (∀ (f : FitsFile) (h : HDU) (hdu fidx : Nat),
      f.hdus[hdu]? = some h →
      h.header ("TUNIT" ++ Nat.repr (fidx + 1)) = none →
      get_field_unit f hdu fidx = Except.ok "" ∧ "" ∉ recognizedUnits) ∧
    (∀ (w : World) (d j : Nat), j < N_PLANCK_SIMS →
      get_field_unit (w.fitsOf j) 1 0 = Except.ok "" →
      isErr (get_ps_data w d).2 = true ∧
      (∀ s, Ev.writeArchive s ∉ (get_ps_data w d).1)) := by
  constructor
  · intro f h hdu fidx hh hk
    refine ⟨?_, by decide⟩
    simp [get_field_unit, hh, hk]
  · intro w d j hj hu
    have hbad : unitOkB w j = false := by
      simp only [unitOkB, hu]
      decide
    obtain ⟨he, _, harch⟩ := get_ps_data_err w d j hj hbad
    exact ⟨he, harch⟩

/-- An HDU with an empty header. -/
def hduNoUnit : HDU := ⟨fun _ => none⟩

/-- A FITS file with no unit keyword anywhere. -/
def fitsNoUnit : FitsFile := ⟨[hduNoUnit, hduNoUnit]⟩

/-- An environment in which no realization declares a unit and no baseline
average exists. -/
def wNoUnit : World :=
  ⟨fun _ => fitsNoUnit, fun _ => mapZero, fun _ => none, fun _ _ => [],
   id, fun _ => pcaZero, id⟩

/-- Witness for C9 at a concrete unit-less FITS file and environment. -/
theorem c9_missing_unit_keyword_witness :
    (get_field_unit fitsNoUnit 1 0 = Except.ok "" ∧ "" ∉ recognizedUnits) ∧
    (isErr (get_ps_data wNoUnit 100).2 = true ∧
     (∀ s, Ev.writeArchive s ∉ (get_ps_data wNoUnit 100).1)) :=
  ⟨c9_missing_unit_keyword.1 fitsNoUnit hduNoUnit 1 0 rfl rfl,
   c9_missing_unit_keyword.2 wNoUnit 100 0 (by decide) rfl⟩

/-- Claim C6: for detectors 353/545/857 the baseline average is read before
any realization is fetched (the average read is the first event, and a
missing baseline aborts the run with no fetch at all), and every computed
power spectrum uses the pixelwise baseline-subtracted map — on success one
for every realization; for any other detector no subtraction is applied and
the baseline file is never read. -/
theorem c6_average_subtraction :
    ∀ (w : World) (d : Nat),
      (d ∈ [353, 545, 857] →
        (w.avgMap d = none →
          (get_ps_data w d).1 = [Ev.loadAvg d] ∧
          isErr (get_ps_data w d).2 = true) ∧
        (∀ avg, w.avgMap d = some avg →
          (∃ rest, (get_ps_data w d).1 = Ev.loadAvg d :: rest) ∧
          (∀ i m lm, Ev.anafast i m lm ∈ (get_ps_data w d).1 →
            m = subMap (w.mapOf i) avg) ∧
          (∀ ar, (get_ps_data w d).2 = Except.ok ar → ∀ i, i < N_PLANCK_SIMS →
            Ev.anafast i (subMap (w.mapOf i) avg)
              (get_lmax_for_nside (nside_for_detector d)) ∈ (get_ps_data w d).1))) ∧
      (d ∉ [353, 545, 857] →
        (∀ i m lm, Ev.anafast i m lm ∈ (get_ps_data w d).1 → m = w.mapOf i) ∧
        (∀ df, Ev.loadAvg df ∉ (get_ps_data w d).1)) := by
  intro w d
  constructor
  · intro hd
    constructor
    · intro havg
      exact ⟨by simp [get_ps_data, hd, havg],
             by simp [get_ps_data, hd, havg, isErr]⟩
    · intro avg havg
      have htr : (get_ps_data w d).1 = Ev.loadAvg d :: (psBody w d true avg).1 := by
        simp [get_ps_data, hd, havg]
      have h2 : (get_ps_data w d).2 = (psBody w d true avg).2 := by
        simp [get_ps_data, hd, havg]
      refine ⟨⟨(psBody w d true avg).1, htr⟩, ?_, ?_⟩
      · intro i m lm hmm
        rw [htr] at hmm
        rcases List.mem_cons.mp hmm with hx | hx
        · simp at hx
        · have hm := (psBody_anafast w d true avg i m lm hx).2.2
          simpa using hm
      · intro ar har i hi
        rw [h2] at har
        have hmem := psBody_ok_events w d true avg ar har i hi
        rw [htr]
        refine List.mem_cons_of_mem _ ?_
        simpa using hmem
  · intro hd
    have htr : (get_ps_data w d).1 = (psBody w d false ⟨[]⟩).1 := by
      simp [get_ps_data, hd]
    constructor
    · intro i m lm hmm
      rw [htr] at hmm
      have hm := (psBody_anafast w d false ⟨[]⟩ i m lm hmm).2.2
      simpa using hm
    · intro df hmm
      rw [htr] at hmm
      exact psBody_no_loadAvg w d false ⟨[]⟩ df hmm

/-- Witness for C6: detector 545 with a missing baseline file aborts before
any fetch — the trace is the single baseline-read event and the result is an
uncaught exception. -/
theorem c6_average_subtraction_witness :
    (get_ps_data wNoUnit 545).1 = [Ev.loadAvg 545] ∧
    isErr (get_ps_data wNoUnit 545).2 = true :=
  ((c6_average_subtraction wNoUnit 545).1 (by decide)).1 rfl

/-- Claim C10: the unit label persisted in the archive is the unit read from
the last realization (index `N_PLANCK_SIMS − 1`) only; earlier realizations'
units are checked for membership in the recognized set but are not otherwise
recorded — two environments that differ only in the unit strings of earlier
realizations (all passing the check) produce identical runs. -/
theorem c10_unit_label :
    (∀ (w : World) (d : Nat) (ar : Archive),
      (get_ps_data w d).2 = Except.ok ar →
      ∃ u, get_field_unit (w.fitsOf (N_PLANCK_SIMS - 1)) 1 0 = Except.ok u ∧
        ar.maps_unit = u) ∧
    (∀ (w w' : World) (d : Nat),
      w'.mapOf = w.mapOf → w'.avgMap = w.avgMap → w'.anafast = w.anafast →
      w'.log10 = w.log10 → w'.pca = w.pca → w'.sqrt = w.sqrt →
      (∀ j, j < N_PLANCK_SIMS → unitOkB w j = true) →
      (∀ j, j < N_PLANCK_SIMS → unitOkB w' j = true) →
      get_field_unit (w'.fitsOf (N_PLANCK_SIMS - 1)) 1 0
        = get_field_unit (w.fitsOf (N_PLANCK_SIMS - 1)) 1 0 →
      get_ps_data w' d = get_ps_data w d) := by
  constructor
  · intro w d ar har
    by_cases hd : d ∈ [353, 545, 857]
    · cases havg : w.avgMap d with
      | none => simp [get_ps_data, hd, havg] at har
      | some avg =>
        have h2 : (get_ps_data w d).2 = (psBody w d true avg).2 := by
          simp [get_ps_data, hd, havg]
        rw [h2] at har
        exact psBody_ok_unit w d true avg ar har
    · have h2 : (get_ps_data w d).2 = (psBody w d false ⟨[]⟩).2 := by
        simp [get_ps_data, hd]
      rw [h2] at har
      exact psBody_ok_unit w d false ⟨[]⟩ ar har
  · intro w w' d hmap havgm hana hlog hpca hsqrt hw hw' hlast
    have hbody : ∀ sub avg, psBody w' d sub avg = psBody w d sub avg :=
      fun sub avg =>
        psBody_frame w w' d sub avg hmap hana hlog hpca hsqrt hw hw' hlast
    by_cases hd : d ∈ [353, 545, 857]
    · cases havg : w.avgMap d with
      | none => simp [get_ps_data, hd, havg, havgm]
      | some avg => simp [get_ps_data, hd, havg, havgm, hbody]
    · simp [get_ps_data, hd, hbody]

/-- An HDU declaring the recognized unit "K_CMB" in `TUNIT1`. -/
def hduK : HDU := ⟨fun k => if k = "TUNIT1" then some "K_CMB" else none⟩

/-- A FITS file whose HDU 1 declares the unit "K_CMB". -/
def fitsK : FitsFile := ⟨[hduK, hduK]⟩

/-- An environment in which every realization reports "K_CMB" over an empty
map; a `get_ps_data` run on it succeeds. -/
def wGood : World :=
  ⟨fun _ => fitsK, fun _ => mapZero, fun _ => none, fun _ _ => [],
   id, fun _ => pcaZero, id⟩

/-- The archive produced by a `get_ps_data` run on `wGood` for detector 100,
extracted from the run itself; the C10 witness proves by `rfl` that the run
really ends in `Except.ok arGood`. -/
def arGood : Archive :=
  match (get_ps_data wGood 100).2 with
  | Except.ok ar => ar
  | Except.error _ => ⟨"", [], [], [], 0, 0, ""⟩

/-- Witness for C10: the archive of a concrete successful run carries the
unit read from realization 99. -/
theorem c10_unit_label_witness :
    ∃ u, get_field_unit (wGood.fitsOf (N_PLANCK_SIMS - 1)) 1 0 = Except.ok u ∧
      arGood.maps_unit = u :=
  c10_unit_label.1 wGood 100 arGood rfl
